import Mathlib

/-!
# Behavioral AI-detection engine: shallow embedding and verification

This file embeds the behavioral signal scorer of the repository
(class AIDetectionEngine in src/backend/main.py, method analyze) as
executable Lean definitions over the rationals, and proves properties
of it.

Modelling conventions:

* Python floats are idealized as rationals.  All arithmetic in the
  source (sums, divisions guarded by the additive 0.1 epsilon,
  threshold comparisons) is exact rational arithmetic here.
* The Python built-in round, which rounds half to even, is modelled by
  rhe below; round(x, d) is modelled by roundTo d x.
* A session dict is modelled by the structure SessionData.  Absent
  numeric keys and the value 0 are indistinguishable in the source
  (every access goes through dict.get with default 0), so plain
  rational fields with default 0 are a faithful quotient.
* The source binds bs to session_data.get("behavioralSignals", {}) or {}
  and only ever uses bool(bs) and bs.get(key, default).  A falsy bs
  (key absent, None, or an empty dict) behaves exactly like the
  all-default record, so behavioralSignals is modelled as an Option:
  none stands for any falsy value, some b for a truthy dict whose
  tracked keys give the field values of b.
* The typing-rhythm signal divides by mean(typingIntervals) + 0.1
  without a guard, the only division in analyze whose denominator can
  vanish; the embedding returns none exactly where Python would raise
  ZeroDivisionError.  All other divisions sit behind the guards the
  source places before them and are embedded with total division.
* The source compares cv = stdev(intervals) / (mean + 0.1) against
  constant thresholds.  stdev is an irrational square root, so the
  comparisons are encoded on squares: for a positive threshold c,
  cv < c holds iff the denominator is negative (making cv nonpositive)
  or variance < c^2 * (mean + 0.1)^2.  The value field of the rhythm
  signal stores cv squared in place of the source's round(cv, 2); no
  verified statement depends on that field.
* The per-signal description strings are presentation-only free text
  (Python f-strings) and are not carried in the embedding.
-/

namespace FYP

/-- The three-valued qualitative verdict attached to every signal. -/
inductive Verdict
  | human
  | suspicious
  | ai_likely
deriving DecidableEq

/-- One scored behavioral signal, as stored in the signals mapping of the
result (description text omitted, see the header comment). -/
structure SignalResult where
  name : String
  value : ℚ
  score : ℚ
  weight : ℚ
  verdict : Verdict
deriving DecidableEq

/-- The nested behavioralSignals object; every field defaults to the
value dict.get supplies in the source. -/
structure BehavioralSignals where
  totalClipboardPastes : ℚ := 0
  totalPasteCharacters : ℚ := 0
  typingIntervals : List ℚ := []
  totalDeletions : ℚ := 0
  deletionCharacters : ℚ := 0
  burstCount : ℚ := 0
  totalCopilotAccepts : ℚ := 0
  totalAutocompleteAccepts : ℚ := 0
  totalUndos : ℚ := 0
  totalRedos : ℚ := 0
deriving DecidableEq

/-- A session telemetry snapshot, the input of analyze. -/
structure SessionData where
  totalKeystrokes : ℚ := 0
  totalPastes : ℚ := 0
  totalEdits : ℚ := 0
  activeDuration : ℚ := 0
  idleDuration : ℚ := 0
  totalDuration : ℚ := 0
  behavioralSignals : Option BehavioralSignals := none
deriving DecidableEq

/-- The final detection result returned by analyze. -/
structure DetectionResult where
  status : String
  aiLikelihoodScore : ℚ
  confidence : ℚ
  signals : List (String × SignalResult)
  recommendation : String
deriving DecidableEq

/-- The fixed weight table AIDetectionEngine.WEIGHTS, in source order. -/
def WEIGHTS : List (String × ℚ) :=
  [("typing_speed", 15/100),
   ("paste_ratio", 20/100),
   ("typing_rhythm", 15/100),
   ("deletion_ratio", 10/100),
   ("burst_pattern", 10/100),
   ("copilot_usage", 15/100),
   ("undo_redo_ratio", 5/100),
   ("idle_ratio", 10/100)]

/-- Lookup in the weight table, the embedding of WEIGHTS[key]. -/
def weightOf (k : String) : ℚ := (WEIGHTS.lookup k).getD 0

/-- Round half to even to an integer, the semantics of the Python
built-in round on exact values. -/
def rhe (x : ℚ) : ℤ :=
  if Int.fract x = 1/2 then (if ⌊x⌋ % 2 = 0 then ⌊x⌋ else ⌊x⌋ + 1)
  else round x

/-- Round half to even at d decimal digits, the model of round(x, d). -/
def roundTo (d : ℕ) (x : ℚ) : ℚ := (rhe (x * 10 ^ d) : ℚ) / 10 ^ d

/-- Arithmetic mean of a list, the model of statistics.mean (only
applied to lists of at least 10 elements). -/
def mean (l : List ℚ) : ℚ := l.sum / (l.length : ℚ)

/-- Sample variance (denominator n - 1), the square of statistics.stdev
(only applied to lists of at least 10 elements). -/
def sampleVariance (l : List ℚ) : ℚ :=
  (l.map (fun x => (x - mean l) ^ 2)).sum / ((l.length : ℚ) - 1)

/-- Encoding of the comparison sqrt v / denom < c for a nonneg variance
v and a positive threshold c, used by the rhythm signal: true iff the
denominator is negative (cv nonpositive) or v < c^2 * denom^2. -/
def cvLt (v denom c : ℚ) : Prop := denom < 0 ∨ v < c ^ 2 * denom ^ 2

instance (v denom c : ℚ) : Decidable (cvLt v denom c) := by
  unfold cvLt; infer_instance

/-- Signal 1, typing speed: cps = keystrokes / (activeDuration + 0.1)
when activeDuration > 0 and 0 otherwise, pushed through the threshold
ladder of the source. -/
def typingSpeedSignal (total_keystrokes active_duration : ℚ) : SignalResult :=
  let cps := if 0 < active_duration
    then total_keystrokes / (active_duration + 1/10) else 0
  let sv : ℚ × Verdict :=
    if 8 < cps then (95, Verdict.ai_likely)
    else if 5 < cps then (75, Verdict.ai_likely)
    else if 7/2 < cps then (40, Verdict.suspicious)
    else if 3/2 < cps then (10, Verdict.human)
    else (15, Verdict.human)
  { name := "Typing Speed", value := roundTo 2 cps, score := sv.1,
    weight := weightOf "typing_speed", verdict := sv.2 }

/-- Signal 2, paste ratio: pasteChars / (keystrokes + pasteChars + 0.1),
guarded as in the source. -/
def pasteRatioSignal (total_keystrokes paste_chars : ℚ) : SignalResult :=
  let total_input := total_keystrokes + paste_chars + 1/10
  let paste_ratio := if 0 < total_input then paste_chars / total_input else 0
  let sv : ℚ × Verdict :=
    if 4/5 < paste_ratio then (95, Verdict.ai_likely)
    else if 1/2 < paste_ratio then (70, Verdict.ai_likely)
    else if 3/10 < paste_ratio then (40, Verdict.suspicious)
    else if 1/10 < paste_ratio then (15, Verdict.human)
    else (5, Verdict.human)
  { name := "Paste Ratio", value := roundTo 1 (paste_ratio * 100), score := sv.1,
    weight := weightOf "paste_ratio", verdict := sv.2 }

/-- The rhythm threshold ladder of the source on cv = sqrt v / denom,
comparisons encoded with cvLt (see the header comment). -/
def rhythmLadder (v denom : ℚ) : ℚ × Verdict :=
  if cvLt v denom (3/10) then (80, Verdict.ai_likely)
  else if cvLt v denom (1/2) then (50, Verdict.suspicious)
  else if cvLt v denom (4/5) then (20, Verdict.human)
  else (5, Verdict.human)

/-- The rhythm signal in the enough-samples branch of the source.  The
value field stores cv squared in place of round(cv, 2), see the header
comment. -/
def rhythmMain (intervals : List ℚ) : SignalResult :=
  { name := "Typing Rhythm",
    value := sampleVariance intervals / (mean intervals + 1/10) ^ 2,
    score := (rhythmLadder (sampleVariance intervals) (mean intervals + 1/10)).1,
    weight := weightOf "typing_rhythm",
    verdict := (rhythmLadder (sampleVariance intervals) (mean intervals + 1/10)).2 }

/-- The rhythm signal in the too-few-samples branch of the source:
suspicious when the session still produced over 200 keystrokes. -/
def rhythmFallback (total_keystrokes : ℚ) : SignalResult :=
  { name := "Typing Rhythm", value := 0,
    score := if 200 < total_keystrokes then 60 else 20,
    weight := weightOf "typing_rhythm",
    verdict := if 200 < total_keystrokes then Verdict.suspicious else Verdict.human }

/-- Signal 3, typing rhythm.  With at least 10 interval samples the
source computes cv = stdev / (mean + 0.1) and ladders on it; the
division raises (none here) exactly when mean = -0.1.  With fewer than
10 samples the source falls back on the keystroke count. -/
def typingRhythmSignal (intervals : List ℚ) (total_keystrokes : ℚ) :
    Option SignalResult :=
  if 10 ≤ intervals.length then
    if mean intervals + 1/10 = 0 then none
    else some (rhythmMain intervals)
  else some (rhythmFallback total_keystrokes)

/-- Signal 4, deletion ratio: deletions / (totalEdits + 0.1), guarded
as in the source, with the fewer-than-5-edits fallback first. -/
def deletionRatioSignal (total_deletions total_edits : ℚ) : SignalResult :=
  let deletion_ratio := if 0 < total_edits
    then total_deletions / (total_edits + 1/10) else 0
  let sv : ℚ × Verdict :=
    if total_edits < 5 then (30, Verdict.suspicious)
    else if deletion_ratio < 1/20 then (70, Verdict.ai_likely)
    else if deletion_ratio < 3/20 then (40, Verdict.suspicious)
    else if deletion_ratio < 2/5 then (10, Verdict.human)
    else (5, Verdict.human)
  { name := "Deletion Pattern", value := roundTo 1 (deletion_ratio * 100),
    score := sv.1, weight := weightOf "deletion_ratio", verdict := sv.2 }

/-- Signal 5, burst pattern: the raw burstCount laddered at 5 and 2. -/
def burstPatternSignal (burst_count : ℚ) : SignalResult :=
  let sv : ℚ × Verdict :=
    if 5 ≤ burst_count then (80, Verdict.ai_likely)
    else if 2 ≤ burst_count then (45, Verdict.suspicious)
    else (10, Verdict.human)
  { name := "Burst Pattern", value := burst_count, score := sv.1,
    weight := weightOf "burst_pattern", verdict := sv.2 }

/-- Signal 6, AI tool usage: totalCopilotAccepts laddered at 10, 3, 0. -/
def copilotUsageSignal (copilot_accepts : ℚ) : SignalResult :=
  let sv : ℚ × Verdict :=
    if 10 < copilot_accepts then (90, Verdict.ai_likely)
    else if 3 < copilot_accepts then (60, Verdict.suspicious)
    else if 0 < copilot_accepts then (30, Verdict.suspicious)
    else (5, Verdict.human)
  { name := "AI Tool Usage", value := copilot_accepts, score := sv.1,
    weight := weightOf "copilot_usage", verdict := sv.2 }

/-- Signal 7, undo/redo: undos / (totalEdits + 0.1), guarded as in the
source, with the fewer-than-5-edits fallback first. -/
def undoRedoSignal (total_undos total_edits : ℚ) : SignalResult :=
  let undo_ratio := if 0 < total_edits
    then total_undos / (total_edits + 1/10) else 0
  let sv : ℚ × Verdict :=
    if total_edits < 5 then (25, Verdict.suspicious)
    else if undo_ratio < 1/50 then (55, Verdict.suspicious)
    else if undo_ratio < 1/10 then (15, Verdict.human)
    else (5, Verdict.human)
  { name := "Undo/Redo Pattern", value := total_undos, score := sv.1,
    weight := weightOf "undo_redo_ratio", verdict := sv.2 }

/-- Signal 8, idle ratio: idleDuration / (totalDuration + 0.1), guarded
as in the source, with the short-session fallback first. -/
def idleRatioSignal (idle_duration total_duration : ℚ) : SignalResult :=
  let idle_ratio := if 0 < total_duration
    then idle_duration / (total_duration + 1/10) else 0
  let sv : ℚ × Verdict :=
    if total_duration < 30 then (50, Verdict.suspicious)
    else if idle_ratio < 1/20 then (50, Verdict.suspicious)
    else if idle_ratio < 3/20 then (25, Verdict.human)
    else if idle_ratio < 1/2 then (10, Verdict.human)
    else (10, Verdict.human)
  { name := "Thinking Time", value := roundTo 1 (idle_ratio * 100),
    score := sv.1, weight := weightOf "idle_ratio", verdict := sv.2 }

/-- The Python built-in min on two numbers: the first argument when it
is smaller or equal, else the second.  Agrees with min on ℚ and is
kernel-reducible. -/
def pymin (a b : ℚ) : ℚ := if a ≤ b then a else b

/-- The Python built-in max on two numbers: the first argument when it
is greater or equal, else the second.  Agrees with max on ℚ and is
kernel-reducible. -/
def pymax (a b : ℚ) : ℚ := if b ≤ a then a else b

theorem pymin_eq_min (a b : ℚ) : pymin a b = min a b := by
  unfold pymin
  rcases le_total a b with h | h
  · rw [if_pos h, min_eq_left h]
  · by_cases h2 : a ≤ b
    · rw [if_pos h2, min_eq_left h2]
    · rw [if_neg h2, min_eq_right h]

theorem pymax_eq_max (a b : ℚ) : pymax a b = max a b := by
  unfold pymax
  rcases le_total b a with h | h
  · rw [if_pos h, max_eq_left h]
  · by_cases h2 : b ≤ a
    · rw [if_pos h2, max_eq_left h2]
    · rw [if_neg h2, max_eq_right h]

/-- The truthy behavioralSignals dict of a session, defaulted exactly
like bs in the source. -/
def bsOf (s : SessionData) : BehavioralSignals := s.behavioralSignals.getD {}

/-- Effective total duration: the source replaces a falsy (zero)
totalDuration by activeDuration + idleDuration. -/
def totalDurationOf (s : SessionData) : ℚ :=
  if s.totalDuration = 0 then s.activeDuration + s.idleDuration
  else s.totalDuration

/-- The typing-rhythm signal of a session, the one fallible step. -/
def rhythmOf (s : SessionData) : Option SignalResult :=
  typingRhythmSignal (bsOf s).typingIntervals s.totalKeystrokes

/-- The signals mapping, in the insertion order of the source dict. -/
def signalsList (s : SessionData) (rh : SignalResult) :
    List (String × SignalResult) :=
  [("typing_speed", typingSpeedSignal s.totalKeystrokes s.activeDuration),
   ("paste_ratio", pasteRatioSignal s.totalKeystrokes (bsOf s).totalPasteCharacters),
   ("typing_rhythm", rh),
   ("deletion_ratio", deletionRatioSignal (bsOf s).totalDeletions s.totalEdits),
   ("burst_pattern", burstPatternSignal (bsOf s).burstCount),
   ("copilot_usage", copilotUsageSignal (bsOf s).totalCopilotAccepts),
   ("undo_redo_ratio", undoRedoSignal (bsOf s).totalUndos s.totalEdits),
   ("idle_ratio", idleRatioSignal s.idleDuration (totalDurationOf s))]

/-- The combination loop of the source: weighted sum over the signals
divided by the total weight, guarded by total_weight > 0. -/
def compositeOf (sigs : List (String × SignalResult)) : ℚ :=
  let weighted_sum := (sigs.map (fun p => p.2.score * p.2.weight)).sum
  let total_weight := (sigs.map (fun p => p.2.weight)).sum
  if 0 < total_weight then weighted_sum / total_weight else 0

/-- The count of the five data-sufficiency indicators of the source. -/
def dataPoints (s : SessionData) : ℕ :=
  (if 10 ≤ (bsOf s).typingIntervals.length then 1 else 0) +
  (if s.behavioralSignals.isSome then 1 else 0) +
  (if 10 < s.totalEdits then 1 else 0) +
  (if 60 < s.activeDuration then 1 else 0) +
  (if 50 < s.totalKeystrokes then 1 else 0)

/-- The high-likelihood recommendation text. -/
def recHigh : String :=
  "High likelihood of AI-generated code. Review behavioral signals for details."

/-- The moderate-indicators recommendation text. -/
def recModerate : String :=
  "Moderate AI indicators detected. Some code may be AI-assisted."

/-- The appears-human-written recommendation text. -/
def recHuman : String :=
  "Code appears to be human-written based on behavioral analysis."

/-- Recommendation thresholding of the source: at least 70 high, at
least 40 moderate, else human. -/
def recommendationFor (ai : ℚ) : String :=
  if 70 ≤ ai then recHigh
  else if 40 ≤ ai then recModerate
  else recHuman

/-- Everything analyze does after the rhythm signal succeeded: combine,
clamp the one-decimal rounding, count confidence, choose the text. -/
def mkResult (s : SessionData) (rh : SignalResult) : DetectionResult :=
  let sigs := signalsList s rh
  let ai := pymin 100 (pymax 0 (roundTo 1 (compositeOf sigs)))
  { status := "success",
    aiLikelihoodScore := ai,
    confidence := pymin 95 ((dataPoints s : ℚ) * 19),
    signals := sigs,
    recommendation := recommendationFor ai }

/-- The embedding of AIDetectionEngine.analyze.  none marks the single
input region where the Python function raises (see typingRhythmSignal);
everywhere else the result mirrors the returned dict. -/
def analyze (s : SessionData) : Option DetectionResult :=
  (rhythmOf s).map (mkResult s)

/-- Modelled from the spec words of claim C2: the combination read as
clamp(round(weighted sum / total weight), 0, 100) with round taken as
the Python built-in rounding to the nearest INTEGER (half to even).
Compared against the source, which rounds to one decimal digit. -/
def specAiScoreInt (sigs : List (String × SignalResult)) : ℚ :=
  let weighted_sum := (sigs.map (fun p => p.2.score * p.2.weight)).sum
  let total_weight := (sigs.map (fun p => p.2.weight)).sum
  pymin 100 (pymax 0 ((rhe (weighted_sum / total_weight) : ℚ)))

/-- Modelled from the spec words of claim C3: the typing-speed threshold
ladder applied to a given chars-per-second value. -/
def specTypingSpeedPair (cps : ℚ) : ℚ × Verdict :=
  if 8 < cps then (95, Verdict.ai_likely)
  else if 5 < cps then (75, Verdict.ai_likely)
  else if 7/2 < cps then (40, Verdict.suspicious)
  else if 3/2 < cps then (10, Verdict.human)
  else (15, Verdict.human)

/-- Modelled from the spec words of claim C4: the rhythm ladder applied
to the raw coefficient of variation stdev/mean (no damping term in the
denominator), comparisons encoded on squares exactly like cvLt. -/
def specRhythmPair (l : List ℚ) : ℚ × Verdict :=
  if cvLt (sampleVariance l) (mean l) (3/10) then (80, Verdict.ai_likely)
  else if cvLt (sampleVariance l) (mean l) (1/2) then (50, Verdict.suspicious)
  else if cvLt (sampleVariance l) (mean l) (4/5) then (20, Verdict.human)
  else (5, Verdict.human)

/-- The all-default (empty dict) session. -/
def sEmpty : SessionData := {}

/-- The rhythm signal produced for sessions with no intervals and at
most 200 keystrokes: the short-session fallback. -/
def rhEmpty : SignalResult :=
  { name := "Typing Rhythm", value := 0, score := 20,
    weight := weightOf "typing_rhythm", verdict := Verdict.human }

/-- A data-rich behavioralSignals object used as a concrete input. -/
def bs5 : BehavioralSignals := { typingIntervals := List.replicate 12 (1/5) }

/-- A data-rich session: all five confidence predicates hold. -/
def s5 : SessionData :=
  { totalKeystrokes := 300, activeDuration := 100, totalEdits := 20,
    behavioralSignals := some bs5 }

/-- The rhythm signal of s5: twelve uniform intervals, cv 0, score 80. -/
def rh5 : SignalResult :=
  { name := "Typing Rhythm", value := 0, score := 80,
    weight := weightOf "typing_rhythm", verdict := Verdict.ai_likely }

/-- A fast-typing session: 1000 keystrokes in 100 seconds. -/
def s6 : SessionData := { totalKeystrokes := 1000, activeDuration := 100 }

/-- The rhythm signal of s6: no intervals but over 200 keystrokes. -/
def rh6 : SignalResult :=
  { name := "Typing Rhythm", value := 0, score := 60,
    weight := weightOf "typing_rhythm", verdict := Verdict.suspicious }

/-- The full detection result of s6. -/
def r6 : DetectionResult := mkResult s6 rh6

/-- A heavily AI-assisted behavioralSignals object. -/
def bs7 : BehavioralSignals :=
  { totalPasteCharacters := 10000, totalCopilotAccepts := 20,
    burstCount := 9, typingIntervals := List.replicate 10 (1/10) }

/-- A session dominated by pasting and Copilot accepts. -/
def s7 : SessionData := { behavioralSignals := some bs7 }

/-- The rhythm signal of s7: ten uniform intervals, cv 0, score 80. -/
def rh7 : SignalResult :=
  { name := "Typing Rhythm", value := 0, score := 80,
    weight := weightOf "typing_rhythm", verdict := Verdict.ai_likely }

/-- The full detection result of s7. -/
def r7 : DetectionResult := mkResult s7 rh7

/-- A session with pastes but not a single edit. -/
def s8 : SessionData := { totalPastes := 3 }

/-- The full detection result of s8 (its rhythm signal is rhEmpty). -/
def r8 : DetectionResult := mkResult s8 rhEmpty

/-- A moderate human-looking session. -/
def s10 : SessionData :=
  { totalKeystrokes := 120, totalEdits := 7, activeDuration := 50,
    idleDuration := 10 }

/-- Ten interval samples with mean 0.2 and sample variance 0.005: the
raw CV is about 0.354 while the damped CV of the source is about 0.236,
so the two threshold ladders of claim C4 disagree here. -/
def cexIntervals : List ℚ := 7/20 :: 1/20 :: List.replicate 8 (1/5)

set_option maxRecDepth 8000

theorem weightOf_typing_speed : weightOf "typing_speed" = 3/20 := by
  simp [weightOf, WEIGHTS, List.lookup]; norm_num

theorem weightOf_paste_ratio : weightOf "paste_ratio" = 1/5 := by
  simp [weightOf, WEIGHTS, List.lookup]; norm_num

theorem weightOf_typing_rhythm : weightOf "typing_rhythm" = 3/20 := by
  simp [weightOf, WEIGHTS, List.lookup]; norm_num

theorem weightOf_deletion_ratio : weightOf "deletion_ratio" = 1/10 := by
  simp [weightOf, WEIGHTS, List.lookup]; norm_num

theorem weightOf_burst_pattern : weightOf "burst_pattern" = 1/10 := by
  simp [weightOf, WEIGHTS, List.lookup]; norm_num

theorem weightOf_copilot_usage : weightOf "copilot_usage" = 3/20 := by
  simp [weightOf, WEIGHTS, List.lookup]; norm_num

theorem weightOf_undo_redo_ratio : weightOf "undo_redo_ratio" = 1/20 := by
  simp [weightOf, WEIGHTS, List.lookup]; norm_num

theorem weightOf_idle_ratio : weightOf "idle_ratio" = 1/10 := by
  simp [weightOf, WEIGHTS, List.lookup]; norm_num

theorem typingSpeedSignal_weight (k a : ℚ) :
    (typingSpeedSignal k a).weight = 3/20 := by
  unfold typingSpeedSignal; dsimp only; exact weightOf_typing_speed

theorem pasteRatioSignal_weight (k p : ℚ) :
    (pasteRatioSignal k p).weight = 1/5 := by
  unfold pasteRatioSignal; dsimp only; exact weightOf_paste_ratio

theorem deletionRatioSignal_weight (d e : ℚ) :
    (deletionRatioSignal d e).weight = 1/10 := by
  unfold deletionRatioSignal; dsimp only; exact weightOf_deletion_ratio

theorem burstPatternSignal_weight (b : ℚ) :
    (burstPatternSignal b).weight = 1/10 := by
  unfold burstPatternSignal; dsimp only; exact weightOf_burst_pattern

theorem copilotUsageSignal_weight (c : ℚ) :
    (copilotUsageSignal c).weight = 3/20 := by
  unfold copilotUsageSignal; dsimp only; exact weightOf_copilot_usage

theorem undoRedoSignal_weight (u e : ℚ) :
    (undoRedoSignal u e).weight = 1/20 := by
  unfold undoRedoSignal; dsimp only; exact weightOf_undo_redo_ratio

theorem idleRatioSignal_weight (i t : ℚ) :
    (idleRatioSignal i t).weight = 1/10 := by
  unfold idleRatioSignal; dsimp only; exact weightOf_idle_ratio

theorem typingSpeedSignal_score_bounds (k a : ℚ) :
    10 ≤ (typingSpeedSignal k a).score ∧ (typingSpeedSignal k a).score ≤ 95 := by
  unfold typingSpeedSignal
  dsimp only
  split_ifs <;> norm_num

theorem pasteRatioSignal_score_bounds (k p : ℚ) :
    5 ≤ (pasteRatioSignal k p).score ∧ (pasteRatioSignal k p).score ≤ 95 := by
  unfold pasteRatioSignal
  dsimp only
  split_ifs <;> norm_num

theorem deletionRatioSignal_score_bounds (d e : ℚ) :
    5 ≤ (deletionRatioSignal d e).score ∧ (deletionRatioSignal d e).score ≤ 70 := by
  unfold deletionRatioSignal
  dsimp only
  split_ifs <;> norm_num

theorem burstPatternSignal_score_bounds (b : ℚ) :
    10 ≤ (burstPatternSignal b).score ∧ (burstPatternSignal b).score ≤ 80 := by
  unfold burstPatternSignal
  dsimp only
  split_ifs <;> norm_num

theorem copilotUsageSignal_score_bounds (c : ℚ) :
    5 ≤ (copilotUsageSignal c).score ∧ (copilotUsageSignal c).score ≤ 90 := by
  unfold copilotUsageSignal
  dsimp only
  split_ifs <;> norm_num

theorem undoRedoSignal_score_bounds (u e : ℚ) :
    5 ≤ (undoRedoSignal u e).score ∧ (undoRedoSignal u e).score ≤ 55 := by
  unfold undoRedoSignal
  dsimp only
  split_ifs <;> norm_num

theorem idleRatioSignal_score_bounds (i t : ℚ) :
    10 ≤ (idleRatioSignal i t).score ∧ (idleRatioSignal i t).score ≤ 50 := by
  unfold idleRatioSignal
  dsimp only
  split_ifs <;> norm_num

theorem typingRhythmSignal_shape {l : List ℚ} {k : ℚ} {sr : SignalResult}
    (h : typingRhythmSignal l k = some sr) :
    sr = rhythmMain l ∨ sr = rhythmFallback k := by
  unfold typingRhythmSignal at h
  split_ifs at h <;> simp only [Option.some.injEq] at h <;>
    first
      | exact Or.inl h.symm
      | exact Or.inr h.symm

theorem rhythmMain_weight (l : List ℚ) :
    (rhythmMain l).weight = weightOf "typing_rhythm" := rfl

theorem rhythmFallback_weight (k : ℚ) :
    (rhythmFallback k).weight = weightOf "typing_rhythm" := rfl

theorem typingRhythmSignal_weight {l : List ℚ} {k : ℚ} {sr : SignalResult}
    (h : typingRhythmSignal l k = some sr) :
    sr.weight = weightOf "typing_rhythm" := by
  rcases typingRhythmSignal_shape h with h1 | h1 <;> rw [h1] <;> rfl

theorem rhythmMain_score_cases (l : List ℚ) :
    (rhythmMain l).score = 80 ∨ (rhythmMain l).score = 50 ∨
      (rhythmMain l).score = 20 ∨ (rhythmMain l).score = 5 := by
  unfold rhythmMain rhythmLadder
  dsimp only
  split_ifs <;> norm_num

theorem typingRhythmSignal_score_bounds {l : List ℚ} {k : ℚ} {sr : SignalResult}
    (h : typingRhythmSignal l k = some sr) :
    5 ≤ sr.score ∧ sr.score ≤ 80 := by
  rcases typingRhythmSignal_shape h with h1 | h1
  · rcases rhythmMain_score_cases l with h2 | h2 | h2 | h2 <;>
      rw [h1, h2] <;> norm_num
  · rw [h1]
    unfold rhythmFallback
    dsimp only
    split_ifs <;> norm_num

theorem mean_nonneg {l : List ℚ} (h : ∀ x ∈ l, 0 ≤ x) : 0 ≤ mean l :=
  div_nonneg (List.sum_nonneg h) (Nat.cast_nonneg _)

theorem rhe_sub_le (x : ℚ) : |(rhe x : ℚ) - x| ≤ 1/2 := by
  unfold rhe
  have hfr : Int.fract x = x - ⌊x⌋ := rfl
  split_ifs with h1 h2
  · rw [hfr] at h1
    rw [abs_le]
    constructor <;> linarith
  · rw [hfr] at h1
    rw [abs_le]
    push_cast
    constructor <;> linarith
  · rw [abs_sub_comm]
    exact abs_sub_round x

theorem roundTo_one_close (x : ℚ) : |roundTo 1 x - x| ≤ 1/20 := by
  unfold roundTo
  have h := rhe_sub_le (x * 10 ^ 1)
  rw [abs_le] at h ⊢
  norm_num at h ⊢
  constructor <;> linarith

theorem analyze_some {s : SessionData} {r : DetectionResult}
    (h : analyze s = some r) :
    ∃ rh, rhythmOf s = some rh ∧ r = mkResult s rh := by
  unfold analyze at h
  cases hr : rhythmOf s with
  | none => rw [hr] at h; simp at h
  | some rh =>
      rw [hr] at h
      simp only [Option.map_some', Option.some.injEq] at h
      exact ⟨rh, rfl, h.symm⟩

theorem signalsList_weight_pairs (s : SessionData) (rh : SignalResult)
    (hw : rh.weight = weightOf "typing_rhythm") :
    (signalsList s rh).map (fun p => (p.1, p.2.weight)) = WEIGHTS := by
  simp only [signalsList, List.map]
  rw [hw, weightOf_typing_rhythm, typingSpeedSignal_weight, pasteRatioSignal_weight,
    deletionRatioSignal_weight, burstPatternSignal_weight, copilotUsageSignal_weight,
    undoRedoSignal_weight, idleRatioSignal_weight, WEIGHTS]
  norm_num

theorem signalsList_total_weight (s : SessionData) (rh : SignalResult)
    (hw : rh.weight = weightOf "typing_rhythm") :
    ((signalsList s rh).map (fun p => p.2.weight)).sum = 1 := by
  simp only [signalsList, List.map, List.sum_cons, List.sum_nil]
  rw [hw, weightOf_typing_rhythm, typingSpeedSignal_weight, pasteRatioSignal_weight,
    deletionRatioSignal_weight, burstPatternSignal_weight, copilotUsageSignal_weight,
    undoRedoSignal_weight, idleRatioSignal_weight]
  norm_num

theorem composite_eq_weighted_sum (s : SessionData) (rh : SignalResult)
    (hw : rh.weight = weightOf "typing_rhythm") :
    compositeOf (signalsList s rh) =
      ((signalsList s rh).map (fun p => p.2.score * p.2.weight)).sum := by
  have htw := signalsList_total_weight s rh hw
  unfold compositeOf
  rw [htw]
  norm_num

theorem composite_bounds (s : SessionData) (rh : SignalResult)
    (hw : rh.weight = weightOf "typing_rhythm")
    (hb : 5 ≤ rh.score ∧ rh.score ≤ 80) :
    27/4 ≤ compositeOf (signalsList s rh) ∧
      compositeOf (signalsList s rh) ≤ 163/2 := by
  have h1 := typingSpeedSignal_score_bounds s.totalKeystrokes s.activeDuration
  have h2 := pasteRatioSignal_score_bounds s.totalKeystrokes (bsOf s).totalPasteCharacters
  have h4 := deletionRatioSignal_score_bounds (bsOf s).totalDeletions s.totalEdits
  have h5 := burstPatternSignal_score_bounds (bsOf s).burstCount
  have h6 := copilotUsageSignal_score_bounds (bsOf s).totalCopilotAccepts
  have h7 := undoRedoSignal_score_bounds (bsOf s).totalUndos s.totalEdits
  have h8 := idleRatioSignal_score_bounds s.idleDuration (totalDurationOf s)
  rw [composite_eq_weighted_sum s rh hw]
  simp only [signalsList, List.map, List.sum_cons, List.sum_nil]
  rw [hw, weightOf_typing_rhythm, typingSpeedSignal_weight, pasteRatioSignal_weight,
    deletionRatioSignal_weight, burstPatternSignal_weight, copilotUsageSignal_weight,
    undoRedoSignal_weight, idleRatioSignal_weight]
  constructor <;> nlinarith [h1.1, h1.2, h2.1, h2.2, hb.1, hb.2, h4.1, h4.2,
    h5.1, h5.2, h6.1, h6.2, h7.1, h7.2, h8.1, h8.2]

/-- C1: for every session input (with non-negative typingIntervals, as
the telemetry data model requires), analyze returns a complete
DetectionResult instead of failing, and its signals mapping always
holds exactly the eight documented signal keys. -/
theorem analyze_total_and_signal_keys (s : SessionData)
    (h : ∀ x ∈ (bsOf s).typingIntervals, 0 ≤ x) :
    ∃ r, analyze s = some r ∧
      r.signals.map Prod.fst =
        ["typing_speed", "paste_ratio", "typing_rhythm", "deletion_ratio",
         "burst_pattern", "copilot_usage", "undo_redo_ratio", "idle_ratio"] := by
  have hrh : ∃ rh, rhythmOf s = some rh := by
    unfold rhythmOf typingRhythmSignal
    by_cases h10 : 10 ≤ (bsOf s).typingIntervals.length
    · rw [if_pos h10]
      have hm : 0 ≤ mean (bsOf s).typingIntervals := mean_nonneg h
      have hpos : 0 < mean (bsOf s).typingIntervals + 1/10 := by linarith
      rw [if_neg (ne_of_gt hpos)]
      exact ⟨_, rfl⟩
    · rw [if_neg h10]
      exact ⟨_, rfl⟩
  obtain ⟨rh, hrh⟩ := hrh
  refine ⟨mkResult s rh, ?_, ?_⟩
  · unfold analyze
    rw [hrh]
    rfl
  · show (mkResult s rh).signals.map Prod.fst = _
    unfold mkResult signalsList
    rfl

/-- Witness for C1 at the empty session. -/
theorem analyze_total_and_signal_keys_witness :
    ∃ r, analyze sEmpty = some r ∧
      r.signals.map Prod.fst =
        ["typing_speed", "paste_ratio", "typing_rhythm", "deletion_ratio",
         "burst_pattern", "copilot_usage", "undo_redo_ratio", "idle_ratio"] :=
  analyze_total_and_signal_keys sEmpty (fun x hx => absurd hx (List.not_mem_nil x))

/-- C2 is false as stated: the source rounds the weighted average to
ONE DECIMAL digit, not to an integer.  On the empty session the
weighted average is 17.25; the engine returns 17.2 while the claimed
clamp(round(average)) formula gives 17. -/
theorem empty_session_score_vs_integer_round :
    (analyze sEmpty).map DetectionResult.aiLikelihoodScore = some (86/5) ∧
    (rhythmOf sEmpty).map (fun rh => specAiScoreInt (signalsList sEmpty rh)) =
      some 17 ∧
    (86/5 : ℚ) ≠ 17 := by
  have hrh : rhythmOf sEmpty = some rhEmpty := by
    simp [rhythmOf, sEmpty, bsOf, typingRhythmSignal, rhEmpty, rhythmFallback]
  have hsum : ((signalsList sEmpty rhEmpty).map
      (fun p => p.2.score * p.2.weight)).sum = 69/4 := by
    simp [signalsList, sEmpty, rhEmpty, bsOf, totalDurationOf, typingSpeedSignal,
      pasteRatioSignal, deletionRatioSignal, burstPatternSignal,
      copilotUsageSignal, undoRedoSignal, idleRatioSignal,
      weightOf_typing_speed, weightOf_paste_ratio, weightOf_typing_rhythm,
      weightOf_deletion_ratio, weightOf_burst_pattern, weightOf_copilot_usage,
      weightOf_undo_redo_ratio, weightOf_idle_ratio]
    norm_num
  have hcomp : compositeOf (signalsList sEmpty rhEmpty) = 69/4 := by
    rw [composite_eq_weighted_sum sEmpty rhEmpty rfl, hsum]
  have hfl1 : ⌊(345/2 : ℚ)⌋ = 172 := by
    rw [Int.floor_eq_iff]; norm_num
  have hfl2 : ⌊(69/4 : ℚ)⌋ = 17 := by
    rw [Int.floor_eq_iff]; norm_num
  have hfl3 : ⌊(71/4 : ℚ)⌋ = 17 := by
    rw [Int.floor_eq_iff]; norm_num
  have hround : roundTo 1 ((69:ℚ)/4) = 86/5 := by
    norm_num [roundTo, rhe, Int.fract, hfl1]
  have hrheInt : rhe ((69:ℚ)/4) = 17 := by
    norm_num [rhe, Int.fract, hfl2, round_eq, hfl3]
  have hana : analyze sEmpty = some (mkResult sEmpty rhEmpty) := by
    unfold analyze
    rw [hrh]
    rfl
  refine ⟨?_, ?_, by norm_num⟩
  · rw [hana]
    simp only [Option.map_some']
    unfold mkResult
    dsimp only
    rw [hcomp, hround]
    norm_num [pymin, pymax]
  · rw [hrh]
    simp only [Option.map_some']
    unfold specAiScoreInt
    dsimp only
    rw [hsum, signalsList_total_weight sEmpty rhEmpty rfl]
    norm_num [pymin, pymax, hrheInt]

/-- C2 (amended): aiLikelihoodScore equals the weighted average of the
eight signal scores, normalized by the total weight, rounded half-even
to one decimal digit and clamped to the interval from 0 to 100. -/
theorem ai_score_clamped_tenth_round (s : SessionData) (rh : SignalResult)
    (h : rhythmOf s = some rh) :
    (analyze s).map DetectionResult.aiLikelihoodScore =
      some (pymin 100 (pymax 0 (roundTo 1
        (((signalsList s rh).map (fun p => p.2.score * p.2.weight)).sum /
         ((signalsList s rh).map (fun p => p.2.weight)).sum)))) := by
  have hw : rh.weight = weightOf "typing_rhythm" := by
    unfold rhythmOf at h
    exact typingRhythmSignal_weight h
  have htw := signalsList_total_weight s rh hw
  have hcomp := composite_eq_weighted_sum s rh hw
  unfold analyze
  rw [h]
  simp only [Option.map_some', Option.some.injEq]
  unfold mkResult
  dsimp only
  rw [hcomp, htw, div_one]

/-- Witness for the amended C2 at the empty session. -/
theorem ai_score_clamped_tenth_round_witness :
    (analyze sEmpty).map DetectionResult.aiLikelihoodScore =
      some (pymin 100 (pymax 0 (roundTo 1
        (((signalsList sEmpty rhEmpty).map (fun p => p.2.score * p.2.weight)).sum /
         ((signalsList sEmpty rhEmpty).map (fun p => p.2.weight)).sum)))) :=
  ai_score_clamped_tenth_round sEmpty rhEmpty
    (by simp [rhythmOf, sEmpty, bsOf, typingRhythmSignal, rhEmpty, rhythmFallback])

/-- C3 is false as stated: the source guards the cps computation with
activeDuration > 0.  With 100 keystrokes and activeDuration 0 the
claimed unconditional formula gives cps 1000 hence score 95/ai_likely,
while the code computes metric 0 and scores 15/human. -/
theorem typing_speed_zero_duration_cex :
    (typingSpeedSignal 100 0).value = 0 ∧
    (typingSpeedSignal 100 0).score = 15 ∧
    (typingSpeedSignal 100 0).verdict = Verdict.human ∧
    (100 : ℚ) / (0 + 1/10) = 1000 ∧
    specTypingSpeedPair ((100 : ℚ) / (0 + 1/10)) = (95, Verdict.ai_likely) ∧
    (15 : ℚ) ≠ 95 ∧ (0 : ℚ) ≠ 1000 := by
  refine ⟨?_, ?_, ?_, by norm_num, ?_, by norm_num, by norm_num⟩
  · norm_num [typingSpeedSignal, roundTo, rhe]
  · norm_num [typingSpeedSignal]
  · norm_num [typingSpeedSignal]
  · norm_num [specTypingSpeedPair]

/-- C3 (amended): when activeDuration > 0 the typing-speed metric is
keystrokes / (activeDuration + 0.1) rounded to two decimals and the
score and verdict follow the stated ladder (so cps exactly 8 falls into
the 75/ai_likely branch, not the 95 one); when activeDuration is zero
(or negative) the metric is 0 and the signal scores 15/human. -/
theorem typing_speed_signal_spec (k a : ℚ) :
    (0 < a →
      (typingSpeedSignal k a).value = roundTo 2 (k / (a + 1/10)) ∧
      ((typingSpeedSignal k a).score, (typingSpeedSignal k a).verdict) =
        specTypingSpeedPair (k / (a + 1/10))) ∧
    (a ≤ 0 →
      (typingSpeedSignal k a).value = 0 ∧
      (typingSpeedSignal k a).score = 15 ∧
      (typingSpeedSignal k a).verdict = Verdict.human) := by
  constructor
  · intro h
    unfold typingSpeedSignal specTypingSpeedPair
    dsimp only
    rw [if_pos h]
    exact ⟨rfl, rfl⟩
  · intro h
    unfold typingSpeedSignal
    dsimp only
    rw [if_neg (not_lt.mpr h)]
    refine ⟨?_, ?_, ?_⟩
    · norm_num [roundTo, rhe]
    · norm_num
    · norm_num

/-- Witness for the amended C3: 100 keystrokes in 10 active seconds. -/
theorem typing_speed_signal_spec_witness :
    (typingSpeedSignal 100 10).value = roundTo 2 ((100:ℚ) / (10 + 1/10)) ∧
    ((typingSpeedSignal 100 10).score, (typingSpeedSignal 100 10).verdict) =
      specTypingSpeedPair ((100:ℚ) / (10 + 1/10)) :=
  (typing_speed_signal_spec 100 10).1 (by norm_num)

/-- C4 is false as stated: the source divides the standard deviation by
mean + 0.1, not by the mean.  On cexIntervals (mean 0.2, sample
variance 0.005) the raw CV is above 0.3 so the claimed ladder scores
50/suspicious, but the code's damped CV is below 0.3 and it scores
80/ai_likely. -/
theorem typing_rhythm_damped_cex :
    (typingRhythmSignal cexIntervals 0).map SignalResult.score = some 80 ∧
    (typingRhythmSignal cexIntervals 0).map SignalResult.verdict =
      some Verdict.ai_likely ∧
    specRhythmPair cexIntervals = (50, Verdict.suspicious) ∧
    (80 : ℚ) ≠ 50 := by
  have hmean : mean cexIntervals = 1/5 := by
    simp [cexIntervals, mean, List.replicate]
    norm_num
  have hvar : sampleVariance cexIntervals = 1/200 := by
    simp [sampleVariance, cexIntervals, mean, List.replicate]
    norm_num
  have hlen : cexIntervals.length = 10 := by
    simp [cexIntervals, List.replicate]
  have hsig : typingRhythmSignal cexIntervals 0 = some (rhythmMain cexIntervals) := by
    unfold typingRhythmSignal
    rw [if_pos (by rw [hlen]), if_neg (by rw [hmean]; norm_num)]
  have hpair : (rhythmMain cexIntervals).score = 80 ∧
      (rhythmMain cexIntervals).verdict = Verdict.ai_likely := by
    unfold rhythmMain rhythmLadder cvLt
    rw [hmean, hvar]
    norm_num
  refine ⟨?_, ?_, ?_, by norm_num⟩
  · rw [hsig]
    simp only [Option.map_some', Option.some.injEq]
    exact hpair.1
  · rw [hsig]
    simp only [Option.map_some', Option.some.injEq]
    exact hpair.2
  · unfold specRhythmPair cvLt
    rw [hmean, hvar]
    norm_num

/-- C4 (amended): with at least 10 non-negative interval samples the
rhythm score and verdict ladder on the damped coefficient of variation
stdev / (mean + 0.1) at the stated 0.3 / 0.5 / 0.8 thresholds (encoded
on squares); in particular uniform intervals give cv 0 and score
80/ai_likely.  With fewer than 10 samples the fallback scores
60/suspicious when keystrokes exceed 200 and 20/human otherwise. -/
theorem typing_rhythm_signal_spec (l : List ℚ) (k : ℚ)
    (h0 : ∀ x ∈ l, 0 ≤ x) :
    (10 ≤ l.length →
      typingRhythmSignal l k = some (rhythmMain l) ∧
      ((rhythmMain l).score, (rhythmMain l).verdict) =
        (if sampleVariance l < (3/10)^2 * (mean l + 1/10)^2 then
          ((80:ℚ), Verdict.ai_likely)
         else if sampleVariance l < (1/2)^2 * (mean l + 1/10)^2 then
          (50, Verdict.suspicious)
         else if sampleVariance l < (4/5)^2 * (mean l + 1/10)^2 then
          (20, Verdict.human)
         else (5, Verdict.human))) ∧
    (l.length < 10 →
      typingRhythmSignal l k = some (rhythmFallback k) ∧
      (rhythmFallback k).score = (if 200 < k then (60:ℚ) else 20) ∧
      (rhythmFallback k).verdict =
        (if 200 < k then Verdict.suspicious else Verdict.human)) := by
  have hm : 0 ≤ mean l := mean_nonneg h0
  have hd : (0:ℚ) < mean l + 1/10 := by linarith
  constructor
  · intro h10
    constructor
    · unfold typingRhythmSignal
      rw [if_pos h10, if_neg (ne_of_gt hd)]
    · have hcv : ∀ v c : ℚ, cvLt v (mean l + 1/10) c ↔
          v < c^2 * (mean l + 1/10)^2 := by
        intro v c
        unfold cvLt
        constructor
        · rintro (hneg | hlt)
          · exact absurd hneg (not_lt.mpr hd.le)
          · exact hlt
        · exact Or.inr
      unfold rhythmMain rhythmLadder
      dsimp only
      simp only [hcv]
  · intro hlt
    have h10 : ¬ 10 ≤ l.length := by omega
    refine ⟨?_, rfl, rfl⟩
    unfold typingRhythmSignal
    rw [if_neg h10]

/-- Witness for the amended C4: ten uniform intervals of 0.2 seconds
(variance 0, cv 0, hence the 80/ai_likely branch). -/
theorem typing_rhythm_signal_spec_witness :
    typingRhythmSignal (List.replicate 10 (1/5)) 0 =
      some (rhythmMain (List.replicate 10 (1/5))) ∧
    (rhythmMain (List.replicate 10 (1/5))).score = 80 ∧
    (rhythmMain (List.replicate 10 (1/5))).verdict = Verdict.ai_likely := by
  have h := (typing_rhythm_signal_spec (List.replicate 10 (1/5)) 0
    (fun x hx => by rw [List.eq_of_mem_replicate hx]; norm_num)).1
    (by simp)
  have hvar : sampleVariance (List.replicate 10 (1/5)) = 0 := by
    simp [sampleVariance, mean, List.replicate]
    norm_num
  have hmean10 : mean (List.replicate 10 (1/5)) = 1/5 := by
    simp [mean, List.replicate]
    norm_num
  have hpair := h.2
  rw [hvar, hmean10] at hpair
  rw [if_pos (by norm_num)] at hpair
  exact ⟨h.1, (Prod.mk.injEq _ _ _ _).mp hpair |>.1,
    (Prod.mk.injEq _ _ _ _).mp hpair |>.2⟩

/-- C5: the returned confidence equals min(95, count * 19) where count
counts the five data-sufficiency predicates of the source: at least 10
typing intervals, a (truthy) behavioralSignals object, more than 10
edits, more than 60 active seconds, more than 50 keystrokes. -/
theorem confidence_formula (s : SessionData) (rh : SignalResult)
    (h : rhythmOf s = some rh) :
    (analyze s).map DetectionResult.confidence =
      some (pymin 95 (
        ((if 10 ≤ (bsOf s).typingIntervals.length then 1 else 0) +
         (if s.behavioralSignals.isSome then 1 else 0) +
         (if 10 < s.totalEdits then 1 else 0) +
         (if 60 < s.activeDuration then 1 else 0) +
         (if 50 < s.totalKeystrokes then 1 else 0) : ℚ) * 19)) := by
  unfold analyze
  rw [h]
  simp only [Option.map_some', Option.some.injEq]
  unfold mkResult
  dsimp only
  congr 2
  unfold dataPoints
  push_cast [apply_ite (fun n : ℕ => (n : ℚ))]
  norm_num

/-- Witness for C5 at the data-rich session s5 (all five predicates
hold there). -/
theorem confidence_formula_witness :
    (analyze s5).map DetectionResult.confidence =
      some (pymin 95 (
        ((if 10 ≤ (bsOf s5).typingIntervals.length then 1 else 0) +
         (if s5.behavioralSignals.isSome then 1 else 0) +
         (if 10 < s5.totalEdits then 1 else 0) +
         (if 60 < s5.activeDuration then 1 else 0) +
         (if 50 < s5.totalKeystrokes then 1 else 0) : ℚ) * 19)) := by
  refine confidence_formula s5 rh5 ?_
  have hstep : rhythmOf s5 = typingRhythmSignal (List.replicate 12 (1/5)) 300 := rfl
  have hm : mean (List.replicate 12 (1/5)) = 1/5 := by
    simp [mean, List.replicate]
    norm_num
  have hv : sampleVariance (List.replicate 12 (1/5)) = 0 := by
    simp [sampleVariance, mean, List.replicate]
    norm_num
  rw [hstep]
  unfold typingRhythmSignal
  rw [if_pos (by simp), if_neg (by rw [hm]; norm_num)]
  simp only [Option.some.injEq]
  unfold rhythmMain rhythmLadder cvLt rh5
  rw [hm, hv]
  norm_num

/-- C6: for every analyzed session the returned aiLikelihoodScore lies
in the interval from 0 to 100 and the returned confidence lies in the
interval from 0 to 95. -/
theorem result_bounds (s : SessionData) (r : DetectionResult)
    (h : analyze s = some r) :
    0 ≤ r.aiLikelihoodScore ∧ r.aiLikelihoodScore ≤ 100 ∧
    0 ≤ r.confidence ∧ r.confidence ≤ 95 := by
  obtain ⟨rh, hrh, rfl⟩ := analyze_some h
  unfold mkResult
  dsimp only
  rw [pymin_eq_min, pymin_eq_min, pymax_eq_max]
  refine ⟨le_min (by norm_num) (le_max_left 0 _), min_le_left _ _,
    le_min (by norm_num) (by positivity), min_le_left _ _⟩

/-- Witness for C6 at the fast-typing session s6. -/
theorem result_bounds_witness :
    0 ≤ r6.aiLikelihoodScore ∧ r6.aiLikelihoodScore ≤ 100 ∧
    0 ≤ r6.confidence ∧ r6.confidence ≤ 95 := by
  refine result_bounds s6 r6 ?_
  have hrh : rhythmOf s6 = some rh6 := by
    have hstep : rhythmOf s6 = typingRhythmSignal [] 1000 := rfl
    rw [hstep]
    unfold typingRhythmSignal
    rw [if_neg (by simp)]
    norm_num [rhythmFallback, rh6]
  show (rhythmOf s6).map (mkResult s6) = some r6
  rw [hrh]
  rfl

/-- C7: the recommendation text is obtained by thresholding the final
aiLikelihoodScore exactly at 40 and 70: at least 70 gives the
high-likelihood text, at least 40 but under 70 the moderate-indicators
text, and under 40 the appears-human-written text. -/
theorem recommendation_thresholds (s : SessionData) (r : DetectionResult)
    (h : analyze s = some r) :
    (r.recommendation = recHigh ↔ 70 ≤ r.aiLikelihoodScore) ∧
    (r.recommendation = recModerate ↔
      40 ≤ r.aiLikelihoodScore ∧ r.aiLikelihoodScore < 70) ∧
    (r.recommendation = recHuman ↔ r.aiLikelihoodScore < 40) := by
  obtain ⟨rh, hrh, rfl⟩ := analyze_some h
  unfold mkResult
  dsimp only
  unfold recommendationFor
  split_ifs with h1 h2
  · exact ⟨iff_of_true rfl h1,
      iff_of_false (by simp [recHigh, recModerate])
        (fun hc => absurd hc.2 (not_lt.mpr h1)),
      iff_of_false (by simp [recHigh, recHuman])
        (not_lt.mpr (by linarith))⟩
  · exact ⟨iff_of_false (by simp [recModerate, recHigh]) h1,
      iff_of_true rfl ⟨h2, not_le.mp h1⟩,
      iff_of_false (by simp [recModerate, recHuman]) (not_lt.mpr h2)⟩
  · exact ⟨iff_of_false (by simp [recHuman, recHigh]) h1,
      iff_of_false (by simp [recHuman, recModerate])
        (fun hc => absurd hc.1 h2),
      iff_of_true rfl (not_le.mp h2)⟩

/-- Witness for C7 at the paste-and-Copilot-heavy session s7. -/
theorem recommendation_thresholds_witness :
    (r7.recommendation = recHigh ↔ 70 ≤ r7.aiLikelihoodScore) ∧
    (r7.recommendation = recModerate ↔
      40 ≤ r7.aiLikelihoodScore ∧ r7.aiLikelihoodScore < 70) ∧
    (r7.recommendation = recHuman ↔ r7.aiLikelihoodScore < 40) := by
  refine recommendation_thresholds s7 r7 ?_
  have hm : mean (List.replicate 10 (1/10)) = 1/10 := by
    simp [mean, List.replicate]
    norm_num
  have hv : sampleVariance (List.replicate 10 (1/10)) = 0 := by
    simp [sampleVariance, mean, List.replicate]
    norm_num
  have hrh : rhythmOf s7 = some rh7 := by
    have hstep : rhythmOf s7 = typingRhythmSignal (List.replicate 10 (1/10)) 0 := rfl
    rw [hstep]
    unfold typingRhythmSignal
    rw [if_pos (by simp), if_neg (by rw [hm]; norm_num)]
    simp only [Option.some.injEq]
    unfold rhythmMain rhythmLadder cvLt rh7
    rw [hm, hv]
    norm_num
  show (rhythmOf s7).map (mkResult s7) = some r7
  rw [hrh]
  rfl

/-- C8: when totalEdits is zero, the deletion-pattern signal takes its
fewer-than-5-edits branch and scores 30/suspicious and the undo/redo
signal takes its fewer-than-5-edits branch and scores 25/suspicious;
the guarded embedding divides nowhere on this path. -/
theorem zero_edits_fallback_scores (s : SessionData) (r : DetectionResult)
    (h : analyze s = some r) (he : s.totalEdits = 0) :
    ∃ d u, r.signals.lookup "deletion_ratio" = some d ∧ d.score = 30 ∧
      d.verdict = Verdict.suspicious ∧
      r.signals.lookup "undo_redo_ratio" = some u ∧ u.score = 25 ∧
      u.verdict = Verdict.suspicious := by
  obtain ⟨rh, hrh, rfl⟩ := analyze_some h
  refine ⟨deletionRatioSignal (bsOf s).totalDeletions s.totalEdits,
          undoRedoSignal (bsOf s).totalUndos s.totalEdits,
          ?_, ?_, ?_, ?_, ?_, ?_⟩
  · show (signalsList s rh).lookup "deletion_ratio" = _
    simp [signalsList, List.lookup]
  · unfold deletionRatioSignal
    dsimp only
    rw [he]
    norm_num
  · unfold deletionRatioSignal
    dsimp only
    rw [he]
    norm_num
  · show (signalsList s rh).lookup "undo_redo_ratio" = _
    simp [signalsList, List.lookup]
  · unfold undoRedoSignal
    dsimp only
    rw [he]
    norm_num
  · unfold undoRedoSignal
    dsimp only
    rw [he]
    norm_num

/-- Witness for C8 at the paste-only session s8 (no edits). -/
theorem zero_edits_fallback_scores_witness :
    ∃ d u, r8.signals.lookup "deletion_ratio" = some d ∧ d.score = 30 ∧
      d.verdict = Verdict.suspicious ∧
      r8.signals.lookup "undo_redo_ratio" = some u ∧ u.score = 25 ∧
      u.verdict = Verdict.suspicious := by
  refine zero_edits_fallback_scores s8 r8 ?_ rfl
  have hrh : rhythmOf s8 = some rhEmpty := by
    have hstep : rhythmOf s8 = typingRhythmSignal [] 0 := rfl
    rw [hstep]
    unfold typingRhythmSignal
    rw [if_neg (by simp)]
    norm_num [rhythmFallback, rhEmpty]
  show (rhythmOf s8).map (mkResult s8) = some r8
  rw [hrh]
  rfl

/-- C9: the eight weights of the fixed table sum to 1 within 1e-6, and
every SignalResult in the output carries exactly its table weight (the
key-to-weight pairs of the output equal the WEIGHTS table). -/
theorem weights_sum_one_and_attached :
    |((WEIGHTS.map Prod.snd).sum) - 1| ≤ 1/1000000 ∧
    ∀ s rh, rhythmOf s = some rh →
      (signalsList s rh).map (fun p => (p.1, p.2.weight)) = WEIGHTS := by
  constructor
  · simp [WEIGHTS]
    norm_num
  · intro s rh h
    unfold rhythmOf at h
    exact signalsList_weight_pairs s rh (typingRhythmSignal_weight h)

/-- Witness for C9 at the empty session. -/
theorem weights_sum_one_and_attached_witness :
    |((WEIGHTS.map Prod.snd).sum) - 1| ≤ 1/1000000 ∧
    (signalsList sEmpty rhEmpty).map (fun p => (p.1, p.2.weight)) = WEIGHTS :=
  ⟨weights_sum_one_and_attached.1,
   weights_sum_one_and_attached.2 sEmpty rhEmpty
     (by simp [rhythmOf, sEmpty, bsOf, typingRhythmSignal, rhEmpty, rhythmFallback])⟩

/-- C10: the weighted composite always lies between 6.75 and 81.5, so
the returned aiLikelihoodScore (its one-decimal rounding) is never 0,
never 100, and the clamp to the 0..100 range never changes the
computed value. -/
theorem composite_range_and_clamp_identity (s : SessionData) (rh : SignalResult)
    (h : rhythmOf s = some rh) :
    (27/4 ≤ compositeOf (signalsList s rh) ∧
      compositeOf (signalsList s rh) ≤ 163/2) ∧
    (analyze s).map DetectionResult.aiLikelihoodScore =
      some (roundTo 1 (compositeOf (signalsList s rh))) ∧
    roundTo 1 (compositeOf (signalsList s rh)) ≠ 0 ∧
    roundTo 1 (compositeOf (signalsList s rh)) ≠ 100 := by
  have hw : rh.weight = weightOf "typing_rhythm" := by
    unfold rhythmOf at h
    exact typingRhythmSignal_weight h
  have hbnd : 5 ≤ rh.score ∧ rh.score ≤ 80 := by
    unfold rhythmOf at h
    exact typingRhythmSignal_score_bounds h
  have hc := composite_bounds s rh hw hbnd
  have hr := roundTo_one_close (compositeOf (signalsList s rh))
  rw [abs_le] at hr
  have h0 : 0 < roundTo 1 (compositeOf (signalsList s rh)) := by
    linarith [hc.1, hr.1, hr.2]
  have h100 : roundTo 1 (compositeOf (signalsList s rh)) < 100 := by
    linarith [hc.2, hr.1, hr.2]
  refine ⟨hc, ?_, h0.ne', h100.ne⟩
  unfold analyze
  rw [h]
  simp only [Option.map_some', Option.some.injEq]
  unfold mkResult
  dsimp only
  unfold pymin pymax
  rw [if_neg (not_le.mpr h0), if_neg (not_le.mpr h100)]

/-- Witness for C10 at the moderate session s10. -/
theorem composite_range_and_clamp_identity_witness :
    (27/4 ≤ compositeOf (signalsList s10 rhEmpty) ∧
      compositeOf (signalsList s10 rhEmpty) ≤ 163/2) ∧
    (analyze s10).map DetectionResult.aiLikelihoodScore =
      some (roundTo 1 (compositeOf (signalsList s10 rhEmpty))) ∧
    roundTo 1 (compositeOf (signalsList s10 rhEmpty)) ≠ 0 ∧
    roundTo 1 (compositeOf (signalsList s10 rhEmpty)) ≠ 100 := by
  refine composite_range_and_clamp_identity s10 rhEmpty ?_
  have hstep : rhythmOf s10 = typingRhythmSignal [] 120 := rfl
  rw [hstep]
  unfold typingRhythmSignal
  rw [if_neg (by simp)]
  norm_num [rhythmFallback, rhEmpty]

end FYP
